import Mathlib

/-!
# Verification of the Game-of-Life implementation (src/game.js)

Shallow embedding of the simulation engine, scheduler state and the
persistence operations of `game.js`, together with proofs of the spec
claims.  JS numbers holding cell states are modelled as `Nat` (the code
only ever stores 0 or 1 in cells); the grid is a list of rows, each row
a list of cells, mirroring the `Array(H) ... Array(W)` layout.  The
mutable module-level configuration `CONFIG.gridWidth/gridHeight` and the
module-level variables `grid`, `isRunning`, `generation` and the saved
games object are collected into an explicit `GameState`.  DOM rendering,
toasts and timestamps carry no simulation state; toasts are modelled as
operation results so that the reported error/success kind is observable.
-/

/-- A grid row: `Array(CONFIG.gridWidth).fill(0)`-style list of cells. -/
abbrev Row := List Nat

/-- The `grid` variable: list of `gridHeight` rows of `gridWidth` cells each. -/
abbrev Grid := List Row

/-- Read cell `grid[y][x]`.  In the source every read is at an in-range
wrapped index of a well-formed grid, so the out-of-range default 0 is
never hit under the well-formedness hypotheses used below. -/
def gridGet (g : Grid) (y x : Nat) : Nat :=
  (g.getD y []).getD x 0

/-- Write cell `grid[y][x] = v` (in the source only at in-range indices;
`List.set` is likewise the identity out of range). -/
def gridSet (g : Grid) (y x v : Nat) : Grid :=
  g.set y ((g.getD y []).set x v)

/-- Model of `createEmptyGrid()`:
`Array(gridHeight).fill(null).map(() => Array(gridWidth).fill(0))`. -/
def createEmptyGrid (W H : Nat) : Grid :=
  List.replicate H (List.replicate W 0)

/-- Model of `createRandomGrid()`: each cell is `Math.random() < initialDensity ? 1 : 0`.
The stream of comparisons `Math.random() < CONFIG.initialDensity` is
modelled by a Boolean oracle `rand` indexed by the cell position in the
order the cells are generated. -/
def createRandomGrid (W H : Nat) (rand : Nat → Nat → Bool) : Grid :=
  (List.range H).map fun y => (List.range W).map fun x =>
    if rand y x then 1 else 0

/-- One wrapped coordinate `((coord + delta + dimension) % dimension)` from
`countNeighbors`.  The JS `%` agrees with the mathematical remainder here
because its left operand `coord + delta + dimension` is non-negative
(`coord ≥ 0`, `delta ≥ -1`, `dimension ≥ 1`). -/
def wrap (c : Nat) (d : Int) (m : Nat) : Nat :=
  (((c : Int) + d + (m : Int)) % (m : Int)).toNat

/-- The eight `(i, j)` offset pairs of the double loop in `countNeighbors`
(`i` is the row offset, `j` the column offset; `(0,0)` is skipped),
in loop order. -/
def neighborDeltas : List (Int × Int) :=
  [(-1, -1), (-1, 0), (-1, 1), (0, -1), (0, 1), (1, -1), (1, 0), (1, 1)]

/-- Model of `countNeighbors(grid, x, y)`: sum of the eight toroidally wrapped
neighbor cells. -/
def countNeighbors (W H : Nat) (g : Grid) (x y : Nat) : Nat :=
  (neighborDeltas.map fun d => gridGet g (wrap y d.1 H) (wrap x d.2 W)).sum

/-- The grid produced by `nextGeneration()` (its pure part): a fresh grid
where cell `(x, y)` is set by the nested conditional of the source
(`cell === 1 && (n === 2 || n === 3)` → 1; `cell === 0 && n === 3` → 1;
otherwise 0).  The source allocates `createEmptyGrid()` and then assigns
every in-range cell exactly once, which is this row-major tabulation;
it reads `grid` and writes only the fresh grid, so the input is unchanged
(the embedding is pure by construction, as is the source function). -/
def stepGrid (W H : Nat) (g : Grid) : Grid :=
  (List.range H).map fun y => (List.range W).map fun x =>
    let neighbors := countNeighbors W H g x y
    let cell := gridGet g y x
    if cell = 1 ∧ (neighbors = 2 ∨ neighbors = 3) then 1
    else if cell = 0 ∧ neighbors = 3 then 1
    else 0

/-- Toast kinds: `showToast(msg, 'success' | 'error')`. -/
inductive ToastKind where
  | success
  | error
deriving DecidableEq, Repr

/-- A toast notification as shown by `showToast`. -/
structure Toast where
  message : String
  kind : ToastKind
deriving DecidableEq, Repr

/-- A saved game record (`gameData` in `saveGame`). -/
structure Snapshot where
  name : String
  grid : Grid
  generation : Nat
  date : String
  gridWidth : Nat
  gridHeight : Nat
deriving DecidableEq, Repr

/-- The saved-games object parsed from `localStorage` (`getSavedGames()`):
a string-keyed map with unique keys, modelled as an association list. -/
abbrev Store := List (String × Snapshot)

/-- Property lookup `savedGames[name]`. -/
def storeGet : Store → String → Option Snapshot
  | [], _ => none
  | (k, v) :: rest, n => if k = n then some v else storeGet rest n

/-- Property assignment `savedGames[name] = gameData` (last write wins,
keys stay unique). -/
def storeSet : Store → String → Snapshot → Store
  | [], n, v => [(n, v)]
  | (k, w) :: rest, n, v =>
    if k = n then (n, v) :: rest else (k, w) :: storeSet rest n v

/-- Property removal `delete savedGames[name]` (a no-op when the key is absent). -/
def storeDelete : Store → String → Store
  | [], _ => []
  | (k, w) :: rest, n =>
    if k = n then storeDelete rest n else (k, w) :: storeDelete rest n

/-- The module-level mutable state of `game.js` that the claims concern:
the configured dimensions, the live grid, the scheduler's running flag,
the generation counter and the persisted store. -/
structure GameState where
  gridWidth : Nat
  gridHeight : Nat
  grid : Grid
  isRunning : Bool
  generation : Nat
  store : Store
deriving DecidableEq, Repr

/-- Model of `pause()`: sets `isRunning = false` (the early return when already
paused yields the same state; DOM/`cancelAnimationFrame` effects carry no
modelled state). -/
def pause (s : GameState) : GameState :=
  { s with isRunning := false }

/-- Model of `nextGeneration()`: replaces the grid by the freshly computed one and
increments `generation` by one. -/
def nextGeneration (s : GameState) : GameState :=
  { s with grid := stepGrid s.gridWidth s.gridHeight s.grid,
           generation := s.generation + 1 }

/-- Model of `step()`: `pause(); nextGeneration(); renderGrid();`. -/
def step (s : GameState) : GameState :=
  nextGeneration (pause s)

/-- Model of `clear()`: pause, empty grid, generation 0, success toast. -/
def clear (s : GameState) : GameState × Toast :=
  ({ pause s with grid := createEmptyGrid s.gridWidth s.gridHeight,
                  generation := 0 },
   ⟨"Tablero limpiado", ToastKind.success⟩)

/-- Model of `randomize()`: pause, random grid, generation 0, success toast. -/
def randomize (s : GameState) (rand : Nat → Nat → Bool) : GameState × Toast :=
  ({ pause s with grid := createRandomGrid s.gridWidth s.gridHeight rand,
                  generation := 0 },
   ⟨"Tablero generado aleatoriamente", ToastKind.success⟩)

/-- The `.trim()` of `saveGame`: drop leading and trailing whitespace
(computable model of the JS string method, working on the character
list). -/
def trimChars (l : List Char) : List Char :=
  ((l.dropWhile Char.isWhitespace).reverse.dropWhile Char.isWhitespace).reverse

/-- The `name.trim()` call on strings. -/
def jsTrim (s : String) : String :=
  ⟨trimChars s.data⟩

/-- Model of `saveGame()`: trims the typed name, rejects an empty one with an error
toast, otherwise stores a snapshot of the live grid, generation and
configured dimensions under the trimmed name.  `rawName` is the text
field's value and `date` the `new Date().toISOString()` result. -/
def saveGame (s : GameState) (rawName : String) (date : String) :
    GameState × Toast :=
  let name := jsTrim rawName
  if name = "" then
    (s, ⟨"Por favor, ingresa un nombre para la partida", ToastKind.error⟩)
  else
    let gameData : Snapshot :=
      ⟨name, s.grid, s.generation, date, s.gridWidth, s.gridHeight⟩
    ({ s with store := storeSet s.store name gameData },
     ⟨"Partida \"" ++ name ++ "\" guardada correctamente", ToastKind.success⟩)

/-- Model of `loadGame(name)`: unknown name → error toast, state unchanged;
stored dimensions differing from the configured ones → error toast,
state unchanged; otherwise pause and install the stored grid and
generation. -/
def loadGame (s : GameState) (name : String) : GameState × Toast :=
  match storeGet s.store name with
  | none => (s, ⟨"No se pudo cargar la partida", ToastKind.error⟩)
  | some gameData =>
    if gameData.gridWidth ≠ s.gridWidth ∨ gameData.gridHeight ≠ s.gridHeight
    then
      (s, ⟨"La partida guardada tiene dimensiones diferentes", ToastKind.error⟩)
    else
      ({ pause s with grid := gameData.grid,
                      generation := gameData.generation },
       ⟨"Partida \"" ++ name ++ "\" cargada", ToastKind.success⟩)

/-- Model of `deleteGame(name)`: after the `confirm(...)` dialog (its answer is the
`confirmed` argument; a declined dialog changes nothing and shows no
toast), removes the key from the store and shows a success toast —
whether or not the name was present. -/
def deleteGame (s : GameState) (name : String) (confirmed : Bool) :
    GameState × Option Toast :=
  if confirmed then
    ({ s with store := storeDelete s.store name },
     some ⟨"Partida \"" ++ name ++ "\" eliminada", ToastKind.success⟩)
  else (s, none)

/-- Model of `handleCanvasClick`: for the cell coordinates computed from the click
position (possibly out of range, hence `Int`), toggle the cell when in
range (`grid[y][x] = grid[y][x] === 1 ? 0 : 1`), else do nothing. -/
def handleCanvasClick (s : GameState) (x y : Int) : GameState :=
  if 0 ≤ x ∧ x < (s.gridWidth : Int) ∧ 0 ≤ y ∧ y < (s.gridHeight : Int) then
    { s with grid := (gridSet s.grid y.toNat x.toNat
        (if gridGet s.grid y.toNat x.toNat = 1 then 0 else 1)) }
  else s

/-- Model of `handleTouchMove`: like the click handler but always draws
(`grid[y][x] = 1`). -/
def handleTouchMove (s : GameState) (x y : Int) : GameState :=
  if 0 ≤ x ∧ x < (s.gridWidth : Int) ∧ 0 ≤ y ∧ y < (s.gridHeight : Int) then
    { s with grid := gridSet s.grid y.toNat x.toNat 1 }
  else s

/-- Shape well-formedness: `gridHeight` rows of `gridWidth` cells. -/
def gridWF (W H : Nat) (g : Grid) : Prop :=
  g.length = H ∧ ∀ row ∈ g, row.length = W

/-- Cell-value invariant: every stored cell is 0 or 1. -/
def binaryGrid (g : Grid) : Prop :=
  ∀ row ∈ g, ∀ c ∈ row, c = 0 ∨ c = 1

/-! ## Concrete states used as witnesses and counterexamples -/

/-- A 2×2 snapshot saved at generation 5. -/
def sampleSnap : Snapshot := ⟨"a", [[1, 0], [0, 0]], 5, "2024-01-01", 2, 2⟩

/-- A paused 2×2 session whose store holds `sampleSnap` under key `"a"`. -/
def sampleState : GameState :=
  ⟨2, 2, [[0, 0], [0, 0]], false, 0, [("a", sampleSnap)]⟩

/-- A 1×1 snapshot, dimensionally incompatible with a 2×2 session. -/
def mismatchSnap : Snapshot := ⟨"b", [[0]], 7, "2024-01-02", 1, 1⟩

/-- A paused 2×2 session whose store holds only the 1×1 `mismatchSnap`. -/
def mismatchState : GameState :=
  ⟨2, 2, [[0, 0], [0, 0]], false, 0, [("b", mismatchSnap)]⟩

/-- A running 2×2 session at generation 3. -/
def runningState : GameState := ⟨2, 2, [[0, 1], [0, 0]], true, 3, []⟩

/-- A paused 2×2 session with an empty store. -/
def emptyState : GameState := ⟨2, 2, [[0, 0], [0, 0]], false, 0, []⟩

/-- A one-live-cell grid: alive only at the last row and column, used for
the wraparound part of the neighbor-count claim. -/
def cornerGrid (W H : Nat) : Grid :=
  gridSet (createEmptyGrid W H) (H - 1) (W - 1) 1

/-- A concrete 3x3 grid (a blinker) used to witness the step rule. -/
def blinker : Grid := [[0, 0, 0], [1, 1, 1], [0, 0, 0]]

/-- The W x H grid whose only live cells are the 2x2 block with top-left
corner `(b, a)` (column, row), the row below and column to the right
wrapping toroidally. -/
def blockGrid (W H a b : Nat) : Grid :=
  (List.range H).map fun y => (List.range W).map fun x =>
    if (y = a ∨ y = (a + 1) % H) ∧ (x = b ∨ x = (b + 1) % W) then 1 else 0

/-- Indicator (0/1) that coordinate `c` lies on one of the two block
lines `a`, `(a+1) % m` of a 2x2 block in a dimension of size `m`. -/
def inBlock (m a c : Nat) : Nat :=
  if c = a ∨ c = (a + 1) % m then 1 else 0

/-! ## Helper lemmas -/

theorem getD_replicate {α : Type} (v d : α) (n i : Nat) :
    (List.replicate n v).getD i d = if i < n then v else d := by
  rw [List.getD_eq_getElem?_getD, List.getElem?_replicate]
  split <;> rfl

theorem getD_range_map {α : Type} (f : Nat → α) (d : α) (n i : Nat) (h : i < n) :
    ((List.range n).map f).getD i d = f i := by
  rw [List.getD_eq_getElem?_getD, List.getElem?_map, List.getElem?_range h]
  rfl

theorem gridGet_empty (W H y x : Nat) : gridGet (createEmptyGrid W H) y x = 0 := by
  unfold gridGet createEmptyGrid
  rw [getD_replicate]
  split
  · rw [getD_replicate]; split <;> rfl
  · rfl

theorem gridGet_tabulate (W H : Nat) (f : Nat → Nat → Nat) {y x : Nat}
    (hy : y < H) (hx : x < W) :
    gridGet ((List.range H).map fun y => (List.range W).map fun x => f y x) y x
      = f y x := by
  unfold gridGet
  rw [getD_range_map _ _ _ _ hy, getD_range_map _ _ _ _ hx]

theorem wrap_lt (c : Nat) (d : Int) (m : Nat) (hm : 0 < m) : wrap c d m < m := by
  unfold wrap
  have h1 : (0 : Int) < (m : Int) := by exact_mod_cast hm
  have h2 := Int.emod_lt_of_pos ((c : Int) + d + m) h1
  have h3 := Int.emod_nonneg ((c : Int) + d + m) (by omega : (m : Int) ≠ 0)
  omega

theorem wrap_neg_one (c m : Nat) (hm : 0 < m) : wrap c (-1) m = (c + m - 1) % m := by
  unfold wrap
  have h1 : (c : Int) + (-1) + m = ((c + m - 1 : Nat) : Int) := by omega
  rw [h1, ← Int.ofNat_emod]
  rfl

theorem wrap_zero (c m : Nat) : wrap c 0 m = c % m := by
  unfold wrap
  have h1 : (c : Int) + 0 + m = ((c + m : Nat) : Int) := by omega
  rw [h1, ← Int.ofNat_emod, Nat.add_mod_right]
  rfl

theorem wrap_one (c m : Nat) : wrap c 1 m = (c + 1) % m := by
  unfold wrap
  have h1 : (c : Int) + 1 + m = ((c + 1 + m : Nat) : Int) := by omega
  rw [h1, ← Int.ofNat_emod, Nat.add_mod_right]
  rfl

theorem storeGet_storeSet_self (st : Store) (n : String) (v : Snapshot) :
    storeGet (storeSet st n v) n = some v := by
  induction st with
  | nil => simp [storeSet, storeGet]
  | cons kv rest ih =>
    obtain ⟨k, w⟩ := kv
    by_cases h : k = n
    · simp [storeSet, storeGet, h]
    · simp [storeSet, storeGet, h, ih]

theorem storeDelete_eq_of_none (st : Store) (n : String)
    (h : storeGet st n = none) : storeDelete st n = st := by
  induction st with
  | nil => rfl
  | cons kv rest ih =>
    obtain ⟨k, w⟩ := kv
    by_cases hk : k = n
    · simp [storeGet, hk] at h
    · simp [storeGet, hk] at h
      simp [storeDelete, hk, ih h]

/-! ## Claims -/

/-- C3: saving the live state under a non-empty (trimmed) name and then
loading that name restores the saved grid cell-for-cell (the stored list
is returned unchanged) and the saved generation count.  The snapshot is
written with the live dimensions, so the load-time dimension check
passes. -/
theorem save_load_roundtrip (s : GameState) (rawName date : String)
    (h : jsTrim rawName ≠ "") :
    (loadGame (saveGame s rawName date).1 (jsTrim rawName)).1.grid = s.grid ∧
    (loadGame (saveGame s rawName date).1 (jsTrim rawName)).1.generation
      = s.generation := by
  simp [saveGame, loadGame, h, storeGet_storeSet_self, pause]

/-- Witness for C3 at a concrete state and the name `" foo "` (non-empty
after trimming). -/
theorem save_load_roundtrip_witness :
    (loadGame (saveGame sampleState " foo " "2024-03-03").1
      (jsTrim " foo ")).1.grid = sampleState.grid ∧
    (loadGame (saveGame sampleState " foo " "2024-03-03").1
      (jsTrim " foo ")).1.generation = sampleState.generation :=
  save_load_roundtrip sampleState " foo " "2024-03-03" (by decide)

/-- C4: loading a stored snapshot whose dimensions differ from the
configured ones returns the state completely unchanged (grid, generation,
running flag and store) together with the dimension-mismatch error toast. -/
theorem load_dimension_mismatch (s : GameState) (name : String)
    (snap : Snapshot) (hget : storeGet s.store name = some snap)
    (hdim : snap.gridWidth ≠ s.gridWidth ∨ snap.gridHeight ≠ s.gridHeight) :
    loadGame s name =
      (s, ⟨"La partida guardada tiene dimensiones diferentes",
           ToastKind.error⟩) := by
  simp [loadGame, hget, hdim]

/-- Witness for C4: loading the 1×1 snapshot into the 2×2 session. -/
theorem load_dimension_mismatch_witness :
    loadGame mismatchState "b" =
      (mismatchState,
       ⟨"La partida guardada tiene dimensiones diferentes",
        ToastKind.error⟩) :=
  load_dimension_mismatch mismatchState "b" mismatchSnap (by decide)
    (Or.inl (by decide))

/-- C7: stepping while the scheduler is running pauses it (the running
flag becomes false), applies exactly one simulation step to the grid and
increments the generation counter by exactly one. -/
theorem step_while_running (s : GameState) (h : s.isRunning = true) :
    (step s).isRunning = false ∧
    (step s).generation = s.generation + 1 ∧
    (step s).grid = stepGrid s.gridWidth s.gridHeight s.grid :=
  ⟨rfl, rfl, rfl⟩

/-- Witness for C7 at a concrete running state. -/
theorem step_while_running_witness :
    (step runningState).isRunning = false ∧
    (step runningState).generation = runningState.generation + 1 ∧
    (step runningState).grid =
      stepGrid runningState.gridWidth runningState.gridHeight
        runningState.grid :=
  step_while_running runningState rfl

theorem countNeighbors_empty (W H x y : Nat) :
    countNeighbors W H (createEmptyGrid W H) x y = 0 := by
  simp [countNeighbors, neighborDeltas, gridGet_empty]

/-- C8: the all-dead grid is a fixed point of the step operation, for any
configured dimensions (including zero): every cell stays dead because it
is dead and its neighbor count 0 is not 3. -/
theorem empty_grid_fixed_point (W H : Nat) :
    stepGrid W H (createEmptyGrid W H) = createEmptyGrid W H := by
  unfold stepGrid
  simp only [countNeighbors_empty, gridGet_empty]
  norm_num
  rfl

/-- C5 (amended): the generation counter (a natural number, hence always
non-negative) is incremented by exactly 1 by `nextGeneration` and reset
to 0 by `clear` and `randomize`; a successful `loadGame` does NOT reset
it to 0 but installs the loaded snapshot's stored generation count. -/
theorem generation_counter_rules (s : GameState) (r : Nat → Nat → Bool)
    (name : String) (snap : Snapshot)
    (hget : storeGet s.store name = some snap)
    (hW : snap.gridWidth = s.gridWidth) (hH : snap.gridHeight = s.gridHeight) :
    (nextGeneration s).generation = s.generation + 1 ∧
    (clear s).1.generation = 0 ∧
    (randomize s r).1.generation = 0 ∧
    (loadGame s name).1.generation = snap.generation := by
  refine ⟨rfl, rfl, rfl, ?_⟩
  simp [loadGame, hget, hW, hH]

/-- Witness for C5 (amended) at a concrete state: loading the snapshot
saved at generation 5 yields generation 5. -/
theorem generation_counter_rules_witness :
    (nextGeneration sampleState).generation = sampleState.generation + 1 ∧
    (clear sampleState).1.generation = 0 ∧
    (randomize sampleState (fun _ _ => false)).1.generation = 0 ∧
    (loadGame sampleState "a").1.generation = sampleSnap.generation :=
  generation_counter_rules sampleState (fun _ _ => false) "a" sampleSnap
    (by decide) rfl rfl

/-- C5 counterexample: loading the stored snapshot (saved at generation 5)
sets the live generation counter to 5, not 0, refuting "load resets it
to 0". -/
theorem load_does_not_reset_generation :
    (loadGame sampleState "a").1.generation = 5 ∧
    (loadGame sampleState "a").1.generation ≠ 0 := by decide

/-- C6 (amended): for a name absent from the store, `loadGame` reports an
error toast and returns the state unchanged, while a confirmed
`deleteGame` leaves the whole state (store included) unchanged but
reports a SUCCESS toast — the code never checks existence before
deleting, so no not-found error is reported. -/
theorem unknown_name_load_delete (s : GameState) (name : String)
    (h : storeGet s.store name = none) :
    loadGame s name = (s, ⟨"No se pudo cargar la partida", ToastKind.error⟩) ∧
    (deleteGame s name true).1 = s ∧
    (deleteGame s name true).2 =
      some ⟨"Partida \"" ++ name ++ "\" eliminada", ToastKind.success⟩ := by
  refine ⟨by simp [loadGame, h], ?_, rfl⟩
  simp [deleteGame, storeDelete_eq_of_none s.store name h]

/-- Witness for C6 (amended) on the empty store. -/
theorem unknown_name_load_delete_witness :
    loadGame emptyState "ghost" =
      (emptyState, ⟨"No se pudo cargar la partida", ToastKind.error⟩) ∧
    (deleteGame emptyState "ghost" true).1 = emptyState ∧
    (deleteGame emptyState "ghost" true).2 =
      some ⟨"Partida \"" ++ "ghost" ++ "\" eliminada", ToastKind.success⟩ :=
  unknown_name_load_delete emptyState "ghost" (by decide)

/-- C6 counterexample: deleting an unknown name reports a success toast
(`'success'`), not an error, refuting the claimed NotFoundError report. -/
theorem delete_unknown_reports_success :
    storeGet emptyState.store "ghost" = none ∧
    (deleteGame emptyState "ghost" true).2 =
      some ⟨"Partida \"ghost\" eliminada", ToastKind.success⟩ ∧
    ToastKind.success ≠ ToastKind.error := by decide

theorem getD_set_self {α : Type} (l : List α) (i : Nat) (a d : α)
    (h : i < l.length) : (l.set i a).getD i d = a := by
  induction l generalizing i with
  | nil => simp at h
  | cons b t ih =>
    cases i with
    | zero => rfl
    | succ i =>
      simp only [List.set, List.getD_cons_succ]
      exact ih i (by simpa using h)

theorem getD_set_ne {α : Type} (l : List α) (i j : Nat) (a d : α)
    (h : i ≠ j) : (l.set i a).getD j d = l.getD j d := by
  induction l generalizing i j with
  | nil => simp
  | cons b t ih =>
    cases i with
    | zero =>
      cases j with
      | zero => exact absurd rfl h
      | succ j => rfl
    | succ i =>
      cases j with
      | zero => rfl
      | succ j =>
        simp only [List.set, List.getD_cons_succ]
        exact ih i j (by omega)

theorem binary_gridGet (g : Grid) (hb : binaryGrid g) (y x : Nat) :
    gridGet g y x = 0 ∨ gridGet g y x = 1 := by
  simp only [gridGet, List.getD_eq_getElem?_getD]
  rcases h1 : g[y]? with _ | row
  · left; simp [h1]
  · simp only [h1, Option.getD_some]
    rcases h2 : row[x]? with _ | c
    · left; simp [h2]
    · simp only [h2, Option.getD_some]
      exact hb row (List.getElem?_mem h1) c (List.getElem?_mem h2)

/-- C1: for all dimensions, `nextGeneration` computes a grid of exactly
`gridHeight` rows of `gridWidth` cells in which a cell is 1 exactly when
(it was 1 with 2 or 3 live neighbors) or (it was 0 with exactly 3 live
neighbors), and 0 otherwise.  The computation only reads the input grid
(`stepGrid` is a pure function of it), so the input is unchanged. -/
theorem nextGeneration_rule (W H : Nat) (g : Grid) :
    (stepGrid W H g).length = H ∧
    (∀ row ∈ stepGrid W H g, row.length = W) ∧
    ∀ y, y < H → ∀ x, x < W →
      gridGet (stepGrid W H g) y x =
        if (gridGet g y x = 1 ∧
              (countNeighbors W H g x y = 2 ∨ countNeighbors W H g x y = 3))
            ∨ (gridGet g y x = 0 ∧ countNeighbors W H g x y = 3)
        then 1 else 0 := by
  refine ⟨by simp [stepGrid], ?_, ?_⟩
  · intro row hrow
    rw [stepGrid, List.mem_map] at hrow
    obtain ⟨y, hy, rfl⟩ := hrow
    simp
  · intro y hy x hx
    rw [stepGrid, gridGet_tabulate W H _ hy hx]
    by_cases h1 : gridGet g y x = 1 ∧
        (countNeighbors W H g x y = 2 ∨ countNeighbors W H g x y = 3)
    · simp [h1]
    · by_cases h2 : gridGet g y x = 0 ∧ countNeighbors W H g x y = 3
      · simp [h1, h2]
      · simp [h1, h2]

/-- Witness for C1: the center cell of a blinker follows the rule. -/
theorem nextGeneration_rule_witness :
    gridGet (stepGrid 3 3 blinker) 1 1 =
      if (gridGet blinker 1 1 = 1 ∧
            (countNeighbors 3 3 blinker 1 1 = 2 ∨
             countNeighbors 3 3 blinker 1 1 = 3))
          ∨ (gridGet blinker 1 1 = 0 ∧ countNeighbors 3 3 blinker 1 1 = 3)
      then 1 else 0 :=
  (nextGeneration_rule 3 3 blinker).2.2 1 (by decide) 1 (by decide)

theorem countNeighbors_expand (W H : Nat) (g : Grid) (x y : Nat)
    (hx : x < W) (hy : y < H) (hW : 0 < W) (hH : 0 < H) :
    countNeighbors W H g x y =
      gridGet g ((y + H - 1) % H) ((x + W - 1) % W) +
      gridGet g ((y + H - 1) % H) x +
      gridGet g ((y + H - 1) % H) ((x + 1) % W) +
      gridGet g y ((x + W - 1) % W) +
      gridGet g y ((x + 1) % W) +
      gridGet g ((y + 1) % H) ((x + W - 1) % W) +
      gridGet g ((y + 1) % H) x +
      gridGet g ((y + 1) % H) ((x + 1) % W) := by
  simp [countNeighbors, neighborDeltas, wrap_neg_one _ _ hH,
        wrap_neg_one _ _ hW, wrap_zero, wrap_one, Nat.mod_eq_of_lt hx,
        Nat.mod_eq_of_lt hy]
  ring

theorem countNeighbors_le_eight (W H : Nat) (g : Grid) (hb : binaryGrid g)
    (x y : Nat) : countNeighbors W H g x y ≤ 8 := by
  have h := List.sum_le_card_nsmul
    (neighborDeltas.map fun d => gridGet g (wrap y d.1 H) (wrap x d.2 W)) 1 ?_
  · simpa [neighborDeltas, countNeighbors] using h
  · intro v hv
    rw [List.mem_map] at hv
    obtain ⟨d, _, rfl⟩ := hv
    rcases binary_gridGet g hb (wrap y d.1 H) (wrap x d.2 W) with h0 | h1 <;>
      omega

theorem gridGet_cornerGrid (W H : Nat) (hW : 0 < W) (hH : 0 < H) :
    gridGet (cornerGrid W H) (H - 1) (W - 1) = 1 := by
  unfold cornerGrid gridSet gridGet
  have hlen : (createEmptyGrid W H).length = H := by simp [createEmptyGrid]
  have hrow : (createEmptyGrid W H).getD (H - 1) [] = List.replicate W 0 := by
    unfold createEmptyGrid
    rw [getD_replicate, if_pos (by omega)]
  rw [getD_set_self _ _ _ _ (by rw [hlen]; omega), hrow,
      getD_set_self _ _ _ _ (by simp; omega)]

/-- C2: for a binary grid and in-range `(x, y)`, `countNeighbors` is at
most 8 (it is a natural number, hence at least 0), equals the sum of the
eight toroidal neighbors with each coordinate wrapped by the
`((coord + delta + dimension) % dimension)` formula, and on the grid
whose only live cell is `(W-1, H-1)` the count at `(0, 0)` includes that
cell (it is at least 1). -/
theorem countNeighbors_spec (W H : Nat) (hW : 0 < W) (hH : 0 < H)
    (g : Grid) (hb : binaryGrid g) (x y : Nat) (hx : x < W) (hy : y < H) :
    countNeighbors W H g x y ≤ 8 ∧
    countNeighbors W H g x y =
      gridGet g ((y + H - 1) % H) ((x + W - 1) % W) +
      gridGet g ((y + H - 1) % H) x +
      gridGet g ((y + H - 1) % H) ((x + 1) % W) +
      gridGet g y ((x + W - 1) % W) +
      gridGet g y ((x + 1) % W) +
      gridGet g ((y + 1) % H) ((x + W - 1) % W) +
      gridGet g ((y + 1) % H) x +
      gridGet g ((y + 1) % H) ((x + 1) % W) ∧
    1 ≤ countNeighbors W H (cornerGrid W H) 0 0 := by
  refine ⟨countNeighbors_le_eight W H g hb x y,
          countNeighbors_expand W H g x y hx hy hW hH, ?_⟩
  rw [countNeighbors_expand W H (cornerGrid W H) 0 0 hW hH hW hH,
      show (0 + H - 1) % H = H - 1 by
        rw [Nat.zero_add]; exact Nat.mod_eq_of_lt (by omega),
      show (0 + W - 1) % W = W - 1 by
        rw [Nat.zero_add]; exact Nat.mod_eq_of_lt (by omega),
      gridGet_cornerGrid W H hW hH]
  omega

/-- Witness for C2 on a concrete 2×2 binary grid. -/
theorem countNeighbors_spec_witness :
    countNeighbors 2 2 [[1, 0], [0, 0]] 0 0 ≤ 8 ∧
    1 ≤ countNeighbors 2 2 (cornerGrid 2 2) 0 0 :=
  ⟨(countNeighbors_spec 2 2 (by decide) (by decide) [[1, 0], [0, 0]]
      (by unfold binaryGrid; decide) 0 0 (by decide) (by decide)).1,
   (countNeighbors_spec 2 2 (by decide) (by decide) [[1, 0], [0, 0]]
      (by unfold binaryGrid; decide) 0 0 (by decide) (by decide)).2.2⟩

theorem if01 (A B : Prop) [Decidable A] [Decidable B] :
    (if A then (1 : Nat) else if B then 1 else 0) = 0 ∨
    (if A then (1 : Nat) else if B then 1 else 0) = 1 := by
  split_ifs <;> simp

theorem if01bool (b : Bool) :
    (if b then (1 : Nat) else 0) = 0 ∨ (if b then (1 : Nat) else 0) = 1 := by
  cases b <;> simp

theorem getD_mem_of_lt {α : Type} (l : List α) (i : Nat) (d : α)
    (h : i < l.length) : l.getD i d ∈ l := by
  rw [List.getD_eq_getElem?_getD, List.getElem?_eq_getElem h]
  exact List.getElem_mem h

theorem binaryGrid_tabulate (W H : Nat) (f : Nat → Nat → Nat)
    (hf : ∀ y x, f y x = 0 ∨ f y x = 1) :
    binaryGrid ((List.range H).map fun y => (List.range W).map fun x =>
      f y x) := by
  intro row hrow
  rw [List.mem_map] at hrow
  obtain ⟨y, _, rfl⟩ := hrow
  intro c hc
  rw [List.mem_map] at hc
  obtain ⟨x, _, rfl⟩ := hc
  exact hf y x

theorem binaryGrid_empty (W H : Nat) : binaryGrid (createEmptyGrid W H) := by
  intro row hrow c hc
  rw [List.eq_of_mem_replicate hrow] at hc
  exact Or.inl (List.eq_of_mem_replicate hc)

theorem binaryGrid_gridSet (g : Grid) (hb : binaryGrid g) (y x v : Nat)
    (hv : v = 0 ∨ v = 1) : binaryGrid (gridSet g y x v) := by
  intro row hrow
  rcases List.mem_or_eq_of_mem_set hrow with hmem | rfl
  · exact hb row hmem
  · intro c hc
    rcases List.mem_or_eq_of_mem_set hc with hcm | rfl
    · rcases h1 : g[y]? with _ | r
      · rw [List.getD_eq_getElem?_getD, h1] at hcm
        simp at hcm
      · rw [List.getD_eq_getElem?_getD, h1] at hcm
        exact hb r (List.getElem?_mem h1) c hcm
    · exact hv

theorem gridGet_gridSet_self (g : Grid) (y x v : Nat) (hy : y < g.length)
    (hx : x < (g.getD y []).length) : gridGet (gridSet g y x v) y x = v := by
  unfold gridGet gridSet
  rw [getD_set_self _ _ _ _ hy, getD_set_self _ _ _ _ hx]

/-- C10: every grid-writing operation keeps each cell exactly 0 or 1:
`nextGeneration` (via `stepGrid`), `clear` (via `createEmptyGrid`),
`randomize` (via `createRandomGrid`), the click handler and the touch
handler (given a binary well-formed live grid).  Moreover, for in-range
coordinates a click toggles the cell between 0 and 1 and a touch always
sets it to 1. -/
theorem binary_cell_invariant (W H : Nat) (g : Grid) (r : Nat → Nat → Bool)
    (s : GameState) (x y : Int) (hb : binaryGrid s.grid)
    (hwf : gridWF s.gridWidth s.gridHeight s.grid)
    (hx0 : 0 ≤ x) (hx1 : x < (s.gridWidth : Int))
    (hy0 : 0 ≤ y) (hy1 : y < (s.gridHeight : Int)) :
    binaryGrid (stepGrid W H g) ∧
    binaryGrid (createEmptyGrid W H) ∧
    binaryGrid (createRandomGrid W H r) ∧
    binaryGrid (handleCanvasClick s x y).grid ∧
    binaryGrid (handleTouchMove s x y).grid ∧
    gridGet (handleCanvasClick s x y).grid y.toNat x.toNat =
      (if gridGet s.grid y.toNat x.toNat = 1 then 0 else 1) ∧
    gridGet (handleTouchMove s x y).grid y.toNat x.toNat = 1 := by
  have hcond : 0 ≤ x ∧ x < (s.gridWidth : Int) ∧ 0 ≤ y ∧
      y < (s.gridHeight : Int) := ⟨hx0, hx1, hy0, hy1⟩
  have hylen : y.toNat < s.grid.length := by
    rw [hwf.1]; omega
  have hxlen : x.toNat < (s.grid.getD y.toNat []).length := by
    rw [hwf.2 _ (getD_mem_of_lt s.grid y.toNat [] hylen)]; omega
  refine ⟨?_, binaryGrid_empty W H, ?_, ?_, ?_, ?_, ?_⟩
  · exact binaryGrid_tabulate W H _ fun y x => if01 _ _
  · exact binaryGrid_tabulate W H _ fun y x => if01bool (r y x)
  · rw [handleCanvasClick, if_pos hcond]
    exact binaryGrid_gridSet s.grid hb _ _ _ (by split_ifs <;> simp)
  · rw [handleTouchMove, if_pos hcond]
    exact binaryGrid_gridSet s.grid hb _ _ _ (Or.inr rfl)
  · rw [handleCanvasClick, if_pos hcond]
    exact gridGet_gridSet_self s.grid _ _ _ hylen hxlen
  · rw [handleTouchMove, if_pos hcond]
    exact gridGet_gridSet_self s.grid _ _ _ hylen hxlen

/-- Witness for C10 at the concrete 2×2 state: clicking `(0, 0)` toggles
the dead cell to 1 and touching sets it to 1. -/
theorem binary_cell_invariant_witness :
    gridGet (handleCanvasClick sampleState 0 0).grid 0 0 =
      (if gridGet sampleState.grid 0 0 = 1 then 0 else 1) ∧
    gridGet (handleTouchMove sampleState 0 0).grid 0 0 = 1 :=
  ⟨(binary_cell_invariant 2 2 blinker (fun _ _ => true) sampleState 0 0
      (by unfold binaryGrid; decide) (by unfold gridWF; decide)
      (by decide) (by decide) (by decide) (by decide)).2.2.2.2.2.1,
   (binary_cell_invariant 2 2 blinker (fun _ _ => true) sampleState 0 0
      (by unfold binaryGrid; decide) (by unfold gridWF; decide)
      (by decide) (by decide) (by decide) (by decide)).2.2.2.2.2.2⟩

theorem inBlock_le_one (m a c : Nat) : inBlock m a c ≤ 1 := by
  unfold inBlock; split_ifs <;> simp

theorem inBlock_window (m a c : Nat) (hm : 4 ≤ m) (ha : a < m) (hc : c < m) :
    (inBlock m a c = 1 →
      inBlock m a ((c + m - 1) % m) + inBlock m a c + inBlock m a ((c + 1) % m)
        = 2) ∧
    (inBlock m a c = 0 →
      inBlock m a ((c + m - 1) % m) + inBlock m a c + inBlock m a ((c + 1) % m)
        ≤ 1) := by
  have hA2 : (a + 1 = m ∧ (a + 1) % m = 0) ∨
      (a + 1 < m ∧ (a + 1) % m = a + 1) := by
    rcases Nat.lt_or_ge (a + 1) m with h | h
    · right; exact ⟨h, Nat.mod_eq_of_lt h⟩
    · left
      have hem : a + 1 = m := by omega
      exact ⟨hem, by rw [hem, Nat.mod_self]⟩
  have hP : (c = 0 ∧ (c + m - 1) % m = m - 1) ∨
      (0 < c ∧ (c + m - 1) % m = c - 1) := by
    rcases Nat.eq_zero_or_pos c with h | h
    · left
      refine ⟨h, ?_⟩
      rw [h, Nat.zero_add]
      exact Nat.mod_eq_of_lt (by omega)
    · right
      refine ⟨h, ?_⟩
      rw [show c + m - 1 = (c - 1) + m from by omega, Nat.add_mod_right]
      exact Nat.mod_eq_of_lt (by omega)
  have hN : (c + 1 = m ∧ (c + 1) % m = 0) ∨
      (c + 1 < m ∧ (c + 1) % m = c + 1) := by
    rcases Nat.lt_or_ge (c + 1) m with h | h
    · right; exact ⟨h, Nat.mod_eq_of_lt h⟩
    · left
      have hem : c + 1 = m := by omega
      exact ⟨hem, by rw [hem, Nat.mod_self]⟩
  by_cases m1 : (c + m - 1) % m = a ∨ (c + m - 1) % m = (a + 1) % m <;>
  by_cases m2 : c = a ∨ c = (a + 1) % m <;>
  by_cases m3 : (c + 1) % m = a ∨ (c + 1) % m = (a + 1) % m <;>
    simp only [inBlock, m1, m2, m3, if_true, if_false] <;>
    first
    | omega
    | exact ⟨fun _ => trivial, fun h => by omega⟩

theorem block_cell_arith (r1 r2 r3 c1 c2 c3 n cell : Nat)
    (hn : n = r1 * c1 + r1 * c2 + r1 * c3 + r2 * c1 + r2 * c3 +
              r3 * c1 + r3 * c2 + r3 * c3)
    (hcell : cell = r2 * c2)
    (hr1 : r1 ≤ 1) (hr2 : r2 ≤ 1) (hr3 : r3 ≤ 1)
    (hc1 : c1 ≤ 1) (hc2 : c2 ≤ 1) (hc3 : c3 ≤ 1)
    (hR2 : r2 = 1 → r1 + r2 + r3 = 2) (hR0 : r2 = 0 → r1 + r2 + r3 ≤ 1)
    (hC2 : c2 = 1 → c1 + c2 + c3 = 2) (hC0 : c2 = 0 → c1 + c2 + c3 ≤ 1) :
    (if cell = 1 ∧ (n = 2 ∨ n = 3) then 1
     else if cell = 0 ∧ n = 3 then 1 else (0 : Nat)) = cell := by
  subst hn hcell
  interval_cases r1 <;> interval_cases r2 <;> interval_cases r3 <;>
    interval_cases c1 <;> interval_cases c2 <;> interval_cases c3 <;>
    simp_all

theorem gridGet_blockGrid (W H a b y x : Nat) (hy : y < H) (hx : x < W) :
    gridGet (blockGrid W H a b) y x = inBlock H a y * inBlock W b x := by
  unfold blockGrid
  rw [gridGet_tabulate W H _ hy hx]
  unfold inBlock
  split_ifs with h1 h2 h3 <;> simp_all

theorem block_cell_step (W H a b y x : Nat) (hW : 4 ≤ W) (hH : 4 ≤ H)
    (ha : a < H) (hb : b < W) (hy : y < H) (hx : x < W) :
    (let neighbors := countNeighbors W H (blockGrid W H a b) x y
     let cell := gridGet (blockGrid W H a b) y x
     if cell = 1 ∧ (neighbors = 2 ∨ neighbors = 3) then 1
     else if cell = 0 ∧ neighbors = 3 then 1
     else (0 : Nat)) = gridGet (blockGrid W H a b) y x := by
  have hW0 : 0 < W := by omega
  have hH0 : 0 < H := by omega
  have hyP : (y + H - 1) % H < H := Nat.mod_lt _ hH0
  have hyN : (y + 1) % H < H := Nat.mod_lt _ hH0
  have hxP : (x + W - 1) % W < W := Nat.mod_lt _ hW0
  have hxN : (x + 1) % W < W := Nat.mod_lt _ hW0
  have hcount : countNeighbors W H (blockGrid W H a b) x y =
      inBlock H a ((y + H - 1) % H) * inBlock W b ((x + W - 1) % W) +
      inBlock H a ((y + H - 1) % H) * inBlock W b x +
      inBlock H a ((y + H - 1) % H) * inBlock W b ((x + 1) % W) +
      inBlock H a y * inBlock W b ((x + W - 1) % W) +
      inBlock H a y * inBlock W b ((x + 1) % W) +
      inBlock H a ((y + 1) % H) * inBlock W b ((x + W - 1) % W) +
      inBlock H a ((y + 1) % H) * inBlock W b x +
      inBlock H a ((y + 1) % H) * inBlock W b ((x + 1) % W) := by
    rw [countNeighbors_expand W H (blockGrid W H a b) x y hx hy hW0 hH0,
        gridGet_blockGrid W H a b _ _ hyP hxP,
        gridGet_blockGrid W H a b _ _ hyP hx,
        gridGet_blockGrid W H a b _ _ hyP hxN,
        gridGet_blockGrid W H a b _ _ hy hxP,
        gridGet_blockGrid W H a b _ _ hy hxN,
        gridGet_blockGrid W H a b _ _ hyN hxP,
        gridGet_blockGrid W H a b _ _ hyN hx,
        gridGet_blockGrid W H a b _ _ hyN hxN]
  have hrow := inBlock_window H a y hH ha hy
  have hcol := inBlock_window W b x hW hb hx
  have hcellv := gridGet_blockGrid W H a b y x hy hx
  have hr1 := inBlock_le_one H a ((y + H - 1) % H)
  have hr2 := inBlock_le_one H a y
  have hr3 := inBlock_le_one H a ((y + 1) % H)
  have hc1 := inBlock_le_one W b ((x + W - 1) % W)
  have hc2 := inBlock_le_one W b x
  have hc3 := inBlock_le_one W b ((x + 1) % W)
  have harith := block_cell_arith
    (inBlock H a ((y + H - 1) % H)) (inBlock H a y) (inBlock H a ((y + 1) % H))
    (inBlock W b ((x + W - 1) % W)) (inBlock W b x) (inBlock W b ((x + 1) % W))
    (countNeighbors W H (blockGrid W H a b) x y)
    (gridGet (blockGrid W H a b) y x)
    (by rw [hcount]) hcellv hr1 hr2 hr3 hc1 hc2 hc3
    (fun h2 => by
      have := hrow.1 h2
      omega)
    (fun h2 => by
      have := hrow.2 h2
      omega)
    (fun h2 => by
      have := hcol.1 h2
      omega)
    (fun h2 => by
      have := hcol.2 h2
      omega)
  exact harith

/-- C9: on any toroidal grid at least 4×4 whose only live cells are a
single fully alive 2×2 block (at an arbitrary position, wrapping
allowed), one step reproduces exactly the same grid: the block is a
still life. -/
theorem block_still_life (W H a b : Nat) (hW : 4 ≤ W) (hH : 4 ≤ H)
    (ha : a < H) (hb : b < W) :
    stepGrid W H (blockGrid W H a b) = blockGrid W H a b := by
  have hmain : ∀ y < H, ∀ x < W,
      (let neighbors := countNeighbors W H (blockGrid W H a b) x y
       let cell := gridGet (blockGrid W H a b) y x
       if cell = 1 ∧ (neighbors = 2 ∨ neighbors = 3) then 1
       else if cell = 0 ∧ neighbors = 3 then 1
       else (0 : Nat)) =
      (if (y = a ∨ y = (a + 1) % H) ∧ (x = b ∨ x = (b + 1) % W) then 1
       else (0 : Nat)) := by
    intro y hy x hx
    rw [block_cell_step W H a b y x hW hH ha hb hy hx,
        gridGet_blockGrid W H a b y x hy hx]
    unfold inBlock
    split_ifs <;> simp_all
  unfold stepGrid blockGrid
  refine List.map_congr_left fun y hy => ?_
  refine List.map_congr_left fun x hx => ?_
  rw [List.mem_range] at hy hx
  exact hmain y hy x hx

/-- Witness for C9: the block at `(1, 1)` on a 4×4 torus is unchanged. -/
theorem block_still_life_witness :
    stepGrid 4 4 (blockGrid 4 4 1 1) = blockGrid 4 4 1 1 :=
  block_still_life 4 4 1 1 (by decide) (by decide) (by decide) (by decide)
